import Mathlib

/-!
Shallow embedding of `src/src/lib.rs` of the `lvm` crate: a safe wrapper
around the lvm2app FFI.  The native engine's behaviour is a parameter
(structure `Engine` of response functions); each wrapper function of the
source is translated into a Lean function returning its result, where
relevant paired with the trace of native engine calls it performs, so
that "the underlying engine call is (not) invoked" and "an implicit
write is issued" become provable statements.  Handles are modelled as
natural numbers, with `0` playing the role of the null pointer where the
source tests `is_null`, and nullable engine returns modelled as `Option`.
-/

namespace LvmRs

/-- Errors of the wrapper, embedding the Rust enum `LvmError`:
`Error((Errno, String))`, `IoError`, `NulError` (interior NUL byte in a
`CString::new`), and `ParseError(uuid::Error)` (the uuid error is
represented by its message). -/
inductive LvmError where
  | Error (code : Int) (msg : String)
  | IoError
  | NulError
  | ParseError (msg : String)
deriving DecidableEq, Repr

/-- Embeds `LvmResult<T> = Result<T, LvmError>`. -/
abbrev LvmResult (α : Type) := Except LvmError α

instance {ε α : Type} [DecidableEq ε] [DecidableEq α] : DecidableEq (Except ε α) := fun x y =>
  match x, y with
  | .ok a, .ok b =>
    if h : a = b then .isTrue (congrArg Except.ok h)
    else .isFalse fun hc => h (Except.ok.inj hc)
  | .error a, .error b =>
    if h : a = b then .isTrue (congrArg Except.error h)
    else .isFalse fun hc => h (Except.error.inj hc)
  | .ok _, .error _ => .isFalse fun hc => Except.noConfusion hc
  | .error _, .ok _ => .isFalse fun hc => Except.noConfusion hc

/-- Result of an operation whose source contains an unchecked null
dereference: `ub` marks the execution in which `dm_list_first` is applied
to a null list head, which the source does without a check. -/
inductive UbResult (α : Type) where
  | ok (a : α)
  | err (e : LvmError)
  | ub
deriving DecidableEq, Repr

/-- Result of an operation that can panic (an `Option::unwrap` on `None`
in the source). -/
inductive PanicOr (α : Type) where
  | panicked
  | ok (a : α)
deriving DecidableEq, Repr

/-- `CString::new` fails (with `NulError`) exactly when the string
contains an interior NUL byte. -/
def hasNul (s : String) : Bool := s.data.any fun c => c.toNat == 0

/-- A `uuid` crate `Uuid` value, represented by its 16 raw bytes
(`Uuid::as_bytes`). -/
abbrev Uuid := List Nat

/-- The external uuid library: `Uuid::from_str` parses a string into a
`Uuid` or returns a uuid error, represented by its message. -/
structure UuidLib where
  fromStr : String → Except String Uuid

/-- The native engine calls the wrapper can make, each carrying the
handle and arguments passed across the FFI boundary.  `freeNode` is a
call the engine offers for releasing list nodes; the wrapper never emits
it (list ownership stays with the engine). -/
inductive EngineCall where
  | lvmInit (dir : Option String)
  | vgOpenCall (ctx : Nat) (name : String) (mode : String)
  | listVgNamesCall (ctx : Nat)
  | listVgUuidsCall (ctx : Nat)
  | vgListLvsCall (h : Nat)
  | vgListPvsCall (h : Nat)
  | vgGetTagsCall (h : Nat)
  | lvGetTagsCall (h : Nat)
  | vgAddTag (h : Nat) (tag : String)
  | vgRemoveTag (h : Nat) (tag : String)
  | vgExtend (h : Nat) (dev : String)
  | vgReduce (h : Nat) (dev : String)
  | vgRemove (h : Nat)
  | vgSetExtentSize (h : Nat) (size : Nat)
  | vgCreateLvLinear (h : Nat) (name : String) (size : Nat)
  | thinPoolCall (h : Nat) (pool : String) (size : Nat) (chunk : Nat) (meta : Nat) (discard : Nat)
  | vgWrite (h : Nat)
  | vgClose (h : Nat)
  | lvAddTag (h : Nat) (tag : String)
  | lvRemoveTag (h : Nat) (tag : String)
  | lvSnapshot (h : Nat) (name : String) (maxSize : Nat)
  | freeNode (n : Nat)
deriving DecidableEq, Repr

/-- The native engine, as a record of response functions: return codes
for the calls the source checks with `check_retcode`, optional handles
for the calls the source null-tests, optional list contents for the
enumeration calls (with `none` modelling a null list head), and the
per-context error channel `lvm_errno`/`lvm_errmsg` plus the process-wide
`errno::errno()`. -/
structure Engine where
  lvmInitHandle : Option String → Option Nat
  vgOpenHandle : Nat → String → String → Option Nat
  listVgNames : Option (List String)
  listVgUuids : Option (List String)
  vgListLvs : Nat → Option (List Nat)
  vgListPvs : Nat → Option (List Nat)
  vgGetTags : Nat → Option (List String)
  lvGetTags : Nat → Option (List String)
  vgnameFromDevice : Nat → String → Option String
  vgnameFromPvid : Nat → Uuid → Option String
  vgAddTagRet : Nat → String → Int
  vgRemoveTagRet : Nat → String → Int
  vgExtendRet : Nat → String → Int
  vgReduceRet : Nat → String → Int
  vgRemoveRet : Nat → Int
  vgSetExtentSizeRet : Nat → Nat → Int
  vgWriteRet : Nat → Int
  vgCloseRet : Nat → Int
  vgCreateLvLinearHandle : Nat → String → Nat → Option Nat
  thinPoolParamsHandle : Nat → String → Nat → Nat → Nat → Nat → Option Nat
  lvAddTagRet : Nat → String → Int
  lvRemoveTagRet : Nat → String → Int
  lvSnapshotHandle : Nat → String → Nat → Option Nat
  pvParamsCreateHandle : Nat → String → Option Nat
  pvParamsGetProperty : Nat → String → Nat
  pvParamsSetPropertyRet : Nat → String → Nat → Int
  lvmErrno : Nat → Int
  lvmErrmsg : Nat → String
  processErrno : Int

/-- Embeds `struct Lvm { handle: lvm_t }`. -/
structure Lvm where
  handle : Nat
deriving DecidableEq, Repr

/-- Embeds `struct VolumeGroup<'a> { handle: vg_t, lvm: &'a Lvm }`.  The
source struct has exactly these two fields: in particular the open mode
passed to `vg_open` is not recorded in the session. -/
structure VolumeGroup where
  handle : Nat
  lvm : Lvm
deriving DecidableEq, Repr

/-- Embeds `struct PhysicalVolume<'a> { handle: pv_t, lvm: &'a Lvm }`. -/
structure PhysicalVolume where
  handle : Nat
  lvm : Lvm
deriving DecidableEq, Repr

/-- Embeds `struct LogicalVolume<'b, 'a> { handle: lv_t, lvm: &'a Lvm,
vg: &'b VolumeGroup }`; the borrowed references are modelled by value. -/
structure LogicalVolume where
  handle : Nat
  lvm : Lvm
  vg : VolumeGroup
deriving DecidableEq, Repr

/-- Embeds `struct PhysicalVolumeCreateParameters { handle, property_value:
Option<lvm_property_value>, lvm }`; the opaque `lvm_property_value`
record is modelled as a `Nat`. -/
structure PhysicalVolumeCreateParameters where
  handle : Nat
  property_value : Option Nat
  lvm : Lvm
deriving DecidableEq, Repr

/-- Embeds `enum OpenMode { Read, Write }`. -/
inductive OpenMode where
  | Read
  | Write
deriving DecidableEq, Repr

/-- Embeds `OpenMode::to_string`. -/
def OpenMode.to_string : OpenMode → String
  | .Read => "r"
  | .Write => "w"

/-- Embeds `enum LvmThinPolicy { Ignore, NoPassdown, Passdown }`. -/
inductive LvmThinPolicy where
  | Ignore
  | NoPassdown
  | Passdown
deriving DecidableEq, Repr

/-- The `lvm_thin_discards_t` constant chosen by the `match` inside
`create_thin_pool`, with the three bindgen constants modelled as 0, 1, 2. -/
def LvmThinPolicy.discard_code : LvmThinPolicy → Nat
  | .Ignore => 0
  | .NoPassdown => 1
  | .Passdown => 2

/-- Embeds `enum Property` (the payloads carried by the Rust enum). -/
inductive Property where
  | Size (v : Nat)
  | PvMetaDataCopies (v : Nat)
  | PvMetaDatasize (v : Nat)
  | DataAlignment (v : Nat)
  | DataAlignmentOffset (v : Nat)
  | Zero (b : Bool)
deriving DecidableEq, Repr

/-- Embeds `Property::to_string` (note the source maps
`DataAlignmentOffset` to the empty string). -/
def Property.to_string : Property → String
  | .Size _ => "size"
  | .PvMetaDataCopies _ => "pvmetadatacopies"
  | .PvMetaDatasize _ => "pvmetadatasize"
  | .DataAlignment _ => "data_alignment"
  | .DataAlignmentOffset _ => ""
  | .Zero _ => "zero"

/-- Embeds `dm_list_first` on a non-null intrusive list: the cursor is
the index of the current node, `none` models the null pointer returned
at the end of the list. -/
def dmListFirst {α : Type} (l : List α) : Option Nat :=
  if l.length = 0 then none else some 0

/-- Embeds `dm_list_next`. -/
def dmListNext {α : Type} (l : List α) (cur : Nat) : Option Nat :=
  if cur + 1 < l.length then some (cur + 1) else none

/-- The traversal loop of the source (`loop { if x.is_null() break; push;
x = dm_list_next(head, x) }`), with explicit fuel for termination. -/
def walkLoop {α : Type} (l : List α) : Option Nat → Nat → List α
  | none, _ => []
  | some _, 0 => []
  | some i, fuel + 1 =>
    match l[i]? with
    | none => []
    | some x => x :: walkLoop l (dmListNext l i) fuel

/-- Full traversal of an intrusive list from `dm_list_first`. -/
def walk {α : Type} (l : List α) : List α :=
  walkLoop l (dmListFirst l) l.length

/-- Embeds the `check_retcode` helpers (identical on `Lvm`,
`VolumeGroup`, `LogicalVolume`, `PhysicalVolume`): a negative return
code becomes the context's current errno/errmsg pair. -/
def check_retcode (eng : Engine) (ctx : Nat) (retcode : Int) : LvmResult Unit :=
  if retcode < 0 then .error (.Error (eng.lvmErrno ctx) (eng.lvmErrmsg ctx)) else .ok ()

/-- Embeds `Lvm::get_error` (which itself never fails). -/
def Lvm.get_error (lvm : Lvm) (eng : Engine) : Int × String :=
  (eng.lvmErrno lvm.handle, eng.lvmErrmsg lvm.handle)

/-- Embeds `Lvm::new(system_dir)`: a null handle from `lvm_init` is
turned into an error carrying the process-wide `errno::errno()` and the
fixed allocation-failure message, in both the `Some` and `None`
configuration-directory branches. -/
def Lvm.new (eng : Engine) (system_dir : Option String) :
    LvmResult Lvm × List EngineCall :=
  match system_dir with
  | some s =>
    if hasNul s then (.error .NulError, [])
    else
      match eng.lvmInitHandle (some s) with
      | none => (.error (.Error eng.processErrno "Memory allocation problem"),
          [.lvmInit (some s)])
      | some h => (.ok ⟨h⟩, [.lvmInit (some s)])
  | none =>
    match eng.lvmInitHandle none with
    | none => (.error (.Error eng.processErrno "Memory allocation problem"),
        [.lvmInit none])
    | some h => (.ok ⟨h⟩, [.lvmInit none])

/-- Embeds `Lvm::vg_open(name, mode)`: the mode is converted to its
string form and passed to the engine; the returned session records only
the handle and the context reference. -/
def Lvm.vg_open (lvm : Lvm) (eng : Engine) (name : String) (mode : OpenMode) :
    LvmResult VolumeGroup × List EngineCall :=
  if hasNul name then (.error .NulError, [])
  else
    match eng.vgOpenHandle lvm.handle name mode.to_string with
    | none => (.error (.Error (eng.lvmErrno lvm.handle) (eng.lvmErrmsg lvm.handle)),
        [.vgOpenCall lvm.handle name mode.to_string])
    | some h => (.ok ⟨h, lvm⟩, [.vgOpenCall lvm.handle name mode.to_string])

/-- Embeds `Lvm::get_volume_group_names`: the source null-tests the list
head before traversing (`if vg_names.is_null() { return Err(...) }`). -/
def Lvm.get_volume_group_names (lvm : Lvm) (eng : Engine) :
    LvmResult (List String) × List EngineCall :=
  match eng.listVgNames with
  | none => (.error (.Error (eng.lvmErrno lvm.handle) (eng.lvmErrmsg lvm.handle)),
      [.listVgNamesCall lvm.handle])
  | some l => (.ok (walk l), [.listVgNamesCall lvm.handle])

/-- The uuid-parsing loop body of `get_volume_group_uuids`: each node's
string is parsed with `Uuid::from_str`, the first failure propagating
via `?` as a `ParseError`. -/
def parseAll (lib : UuidLib) : List String → LvmResult (List Uuid)
  | [] => .ok []
  | s :: rest =>
    match lib.fromStr s with
    | .error e => .error (.ParseError e)
    | .ok u =>
      match parseAll lib rest with
      | .error e => .error e
      | .ok us => .ok (u :: us)

/-- Embeds `Lvm::get_volume_group_uuids`: null list head is an engine
error; otherwise each traversed string is parsed, a parse failure
surfacing as `ParseError` via `From<uuid::Error>`. -/
def Lvm.get_volume_group_uuids (lvm : Lvm) (eng : Engine) (lib : UuidLib) :
    LvmResult (List Uuid) × List EngineCall :=
  match eng.listVgUuids with
  | none => (.error (.Error (eng.lvmErrno lvm.handle) (eng.lvmErrmsg lvm.handle)),
      [.listVgUuidsCall lvm.handle])
  | some l => (parseAll lib (walk l), [.listVgUuidsCall lvm.handle])

/-- Embeds `Lvm::vg_name_from_device`: a null string from the engine is
returned as `Ok(None)`. -/
def Lvm.vg_name_from_device (lvm : Lvm) (eng : Engine) (device : String) :
    LvmResult (Option String) :=
  if hasNul device then .error .NulError
  else
    match eng.vgnameFromDevice lvm.handle device with
    | none => .ok none
    | some s => .ok (some s)

/-- Embeds `Lvm::vg_name_from_pvid`: the uuid's raw bytes go through
`CString::new` (failing on an interior zero byte); a null string from
the engine is returned as `Ok(None)`. -/
def Lvm.vg_name_from_pvid (lvm : Lvm) (eng : Engine) (pvid : Uuid) :
    LvmResult (Option String) :=
  if pvid.contains 0 then .error .NulError
  else
    match eng.vgnameFromPvid lvm.handle pvid with
    | none => .ok none
    | some s => .ok (some s)

/-- Embeds `Lvm::pv_create_params`: a fresh parameter object starts with
`property_value: None`. -/
def Lvm.pv_create_params (lvm : Lvm) (eng : Engine) (pv_name : String) :
    LvmResult PhysicalVolumeCreateParameters :=
  if hasNul pv_name then .error .NulError
  else
    match eng.pvParamsCreateHandle lvm.handle pv_name with
    | none => .error (.Error (eng.lvmErrno lvm.handle) (eng.lvmErrmsg lvm.handle))
    | some h => .ok ⟨h, none, lvm⟩

/-- Embeds `VolumeGroup::write`. -/
def VolumeGroup.write (vg : VolumeGroup) (eng : Engine) :
    LvmResult Unit × List EngineCall :=
  (check_retcode eng vg.lvm.handle (eng.vgWriteRet vg.handle), [.vgWrite vg.handle])

/-- Embeds `VolumeGroup::close`: the native close is invoked on the
stored handle; the handle field is not cleared (the method takes
`&self`). -/
def VolumeGroup.close (vg : VolumeGroup) (eng : Engine) :
    LvmResult Unit × List EngineCall :=
  (check_retcode eng vg.lvm.handle (eng.vgCloseRet vg.handle), [.vgClose vg.handle])

/-- Embeds `Drop for VolumeGroup`: the destructor re-closes whenever the
stored handle is non-null. -/
def VolumeGroup.drop_glue (vg : VolumeGroup) : List EngineCall :=
  if vg.handle ≠ 0 then [.vgClose vg.handle] else []

/-- The engine-call trace of the session's whole lifetime after an
explicit `close()`: the close's calls followed by the destructor's
calls when the session goes out of scope. -/
def closeThenDrop (vg : VolumeGroup) (eng : Engine) : List EngineCall :=
  (vg.close eng).2 ++ vg.drop_glue

/-- Embeds `VolumeGroup::add_tag`: engine tag call, then the implicit
`self.write()`. -/
def VolumeGroup.add_tag (vg : VolumeGroup) (eng : Engine) (tag : String) :
    LvmResult Unit × List EngineCall :=
  if hasNul tag then (.error .NulError, [])
  else
    match check_retcode eng vg.lvm.handle (eng.vgAddTagRet vg.handle tag) with
    | .error e => (.error e, [.vgAddTag vg.handle tag])
    | .ok _ =>
      let w := vg.write eng
      (w.1, .vgAddTag vg.handle tag :: w.2)

/-- Embeds `VolumeGroup::remove_tag`: engine tag call, then the implicit
`self.write()`. -/
def VolumeGroup.remove_tag (vg : VolumeGroup) (eng : Engine) (tag : String) :
    LvmResult Unit × List EngineCall :=
  if hasNul tag then (.error .NulError, [])
  else
    match check_retcode eng vg.lvm.handle (eng.vgRemoveTagRet vg.handle tag) with
    | .error e => (.error e, [.vgRemoveTag vg.handle tag])
    | .ok _ =>
      let w := vg.write eng
      (w.1, .vgRemoveTag vg.handle tag :: w.2)

/-- Embeds `VolumeGroup::extend`: engine extend call, then the implicit
`self.write()`. -/
def VolumeGroup.extend (vg : VolumeGroup) (eng : Engine) (device : String) :
    LvmResult Unit × List EngineCall :=
  if hasNul device then (.error .NulError, [])
  else
    match check_retcode eng vg.lvm.handle (eng.vgExtendRet vg.handle device) with
    | .error e => (.error e, [.vgExtend vg.handle device])
    | .ok _ =>
      let w := vg.write eng
      (w.1, .vgExtend vg.handle device :: w.2)

/-- Embeds `VolumeGroup::reduce`: engine reduce call only — the source
returns without calling `self.write()`. -/
def VolumeGroup.reduce (vg : VolumeGroup) (eng : Engine) (device : String) :
    LvmResult Unit × List EngineCall :=
  if hasNul device then (.error .NulError, [])
  else
    (check_retcode eng vg.lvm.handle (eng.vgReduceRet vg.handle device),
      [.vgReduce vg.handle device])

/-- Embeds `VolumeGroup::remove`: engine remove call, then the implicit
`self.write()`. -/
def VolumeGroup.remove (vg : VolumeGroup) (eng : Engine) :
    LvmResult Unit × List EngineCall :=
  match check_retcode eng vg.lvm.handle (eng.vgRemoveRet vg.handle) with
  | .error e => (.error e, [.vgRemove vg.handle])
  | .ok _ =>
    let w := vg.write eng
    (w.1, .vgRemove vg.handle :: w.2)

/-- Embeds `VolumeGroup::set_extent_size`: engine call, then the
implicit `self.write()`. -/
def VolumeGroup.set_extent_size (vg : VolumeGroup) (eng : Engine) (size : Nat) :
    LvmResult Unit × List EngineCall :=
  match check_retcode eng vg.lvm.handle (eng.vgSetExtentSizeRet vg.handle size) with
  | .error e => (.error e, [.vgSetExtentSize vg.handle size])
  | .ok _ =>
    let w := vg.write eng
    (w.1, .vgSetExtentSize vg.handle size :: w.2)

/-- Embeds `VolumeGroup::create_lv_linear`: a null handle from the
engine surfaces the context's error; a non-null handle is wrapped into a
`LogicalVolume` borrowing this session and context. -/
def VolumeGroup.create_lv_linear (vg : VolumeGroup) (eng : Engine)
    (name : String) (size : Nat) :
    LvmResult LogicalVolume × List EngineCall :=
  if hasNul name then (.error .NulError, [])
  else
    match eng.vgCreateLvLinearHandle vg.handle name size with
    | none => (.error (.Error (eng.lvmErrno vg.lvm.handle) (eng.lvmErrmsg vg.lvm.handle)),
        [.vgCreateLvLinear vg.handle name size])
    | some h => (.ok ⟨h, vg.lvm, vg⟩, [.vgCreateLvLinear vg.handle name size])

/-- Embeds `VolumeGroup::create_thin_pool`: discard policy mapped to its
engine constant, null parameter object surfacing the context error. -/
def VolumeGroup.create_thin_pool (vg : VolumeGroup) (eng : Engine)
    (pool_name : String) (size : Nat) (chunk_size : Nat) (metadata_size : Nat)
    (discard_policy : LvmThinPolicy) :
    LvmResult Unit × List EngineCall :=
  if hasNul pool_name then (.error .NulError, [])
  else
    match eng.thinPoolParamsHandle vg.handle pool_name size chunk_size metadata_size
        discard_policy.discard_code with
    | none => (.error (.Error (eng.lvmErrno vg.lvm.handle) (eng.lvmErrmsg vg.lvm.handle)),
        [.thinPoolCall vg.handle pool_name size chunk_size metadata_size
          discard_policy.discard_code])
    | some _ => (.ok (),
        [.thinPoolCall vg.handle pool_name size chunk_size metadata_size
          discard_policy.discard_code])

/-- Embeds `VolumeGroup::list_lvs`: the source applies `dm_list_first`
to the head returned by `lvm_vg_list_lvs` without a null check, so a
null head is an unchecked null dereference (`ub`). -/
def VolumeGroup.list_lvs (vg : VolumeGroup) (eng : Engine) :
    UbResult (List LogicalVolume) × List EngineCall :=
  match eng.vgListLvs vg.handle with
  | none => (.ub, [.vgListLvsCall vg.handle])
  | some hs => (.ok ((walk hs).map fun h => ⟨h, vg.lvm, vg⟩),
      [.vgListLvsCall vg.handle])

/-- Embeds `VolumeGroup::list_pvs`: same unchecked traversal as
`list_lvs`. -/
def VolumeGroup.list_pvs (vg : VolumeGroup) (eng : Engine) :
    UbResult (List PhysicalVolume) × List EngineCall :=
  match eng.vgListPvs vg.handle with
  | none => (.ub, [.vgListPvsCall vg.handle])
  | some hs => (.ok ((walk hs).map fun h => ⟨h, vg.lvm⟩),
      [.vgListPvsCall vg.handle])

/-- Embeds `VolumeGroup::get_tags`: same unchecked traversal pattern. -/
def VolumeGroup.get_tags (vg : VolumeGroup) (eng : Engine) :
    UbResult (List String) × List EngineCall :=
  match eng.vgGetTags vg.handle with
  | none => (.ub, [.vgGetTagsCall vg.handle])
  | some l => (.ok (walk l), [.vgGetTagsCall vg.handle])

/-- Embeds `LogicalVolume::get_tags`: same unchecked traversal pattern. -/
def LogicalVolume.get_tags (lv : LogicalVolume) (eng : Engine) :
    UbResult (List String) × List EngineCall :=
  match eng.lvGetTags lv.handle with
  | none => (.ub, [.lvGetTagsCall lv.handle])
  | some l => (.ok (walk l), [.lvGetTagsCall lv.handle])

/-- Embeds `LogicalVolume::add_tag`: engine tag call, then the implicit
`self.vg.write()`. -/
def LogicalVolume.add_tag (lv : LogicalVolume) (eng : Engine) (tag : String) :
    LvmResult Unit × List EngineCall :=
  if hasNul tag then (.error .NulError, [])
  else
    match check_retcode eng lv.lvm.handle (eng.lvAddTagRet lv.handle tag) with
    | .error e => (.error e, [.lvAddTag lv.handle tag])
    | .ok _ =>
      let w := lv.vg.write eng
      (w.1, .lvAddTag lv.handle tag :: w.2)

/-- Embeds `LogicalVolume::remove_tag`: engine tag call, then the
implicit `self.vg.write()`. -/
def LogicalVolume.remove_tag (lv : LogicalVolume) (eng : Engine) (tag : String) :
    LvmResult Unit × List EngineCall :=
  if hasNul tag then (.error .NulError, [])
  else
    match check_retcode eng lv.lvm.handle (eng.lvRemoveTagRet lv.handle tag) with
    | .error e => (.error e, [.lvRemoveTag lv.handle tag])
    | .ok _ =>
      let w := lv.vg.write eng
      (w.1, .lvRemoveTag lv.handle tag :: w.2)

/-- Embeds `LogicalVolume::snapshot`: the requested name and maximum
size are forwarded unchanged; a null handle surfaces the context's
current error; a non-null handle is wrapped into a `LogicalVolume`
sharing `self.lvm` and `self.vg`. -/
def LogicalVolume.snapshot (lv : LogicalVolume) (eng : Engine)
    (snap_name : String) (max_snap_size : Nat) :
    LvmResult LogicalVolume × List EngineCall :=
  if hasNul snap_name then (.error .NulError, [])
  else
    match eng.lvSnapshotHandle lv.handle snap_name max_snap_size with
    | none => (.error (.Error (eng.lvmErrno lv.lvm.handle) (eng.lvmErrmsg lv.lvm.handle)),
        [.lvSnapshot lv.handle snap_name max_snap_size])
    | some h => (.ok ⟨h, lv.lvm, lv.vg⟩,
        [.lvSnapshot lv.handle snap_name max_snap_size])

/-- Embeds `PhysicalVolumeCreateParameters::get_property`: the engine's
property value is cached into `property_value`. -/
def PhysicalVolumeCreateParameters.get_property
    (p : PhysicalVolumeCreateParameters) (eng : Engine) (name : Property) :
    LvmResult Unit × PhysicalVolumeCreateParameters :=
  if hasNul name.to_string then (.error .NulError, p)
  else (.ok (), { p with property_value := some (eng.pvParamsGetProperty p.handle name.to_string) })

/-- Embeds `PhysicalVolumeCreateParameters::set_property`: the source
passes `&mut self.property_value.unwrap()` to the engine, so a `None`
cached value panics before any engine call. -/
def PhysicalVolumeCreateParameters.set_property
    (p : PhysicalVolumeCreateParameters) (eng : Engine) (name : Property) :
    PanicOr (LvmResult Unit) :=
  if hasNul name.to_string then .ok (.error .NulError)
  else
    match p.property_value with
    | none => .panicked
    | some v =>
      if eng.pvParamsSetPropertyRet p.handle name.to_string v < 0 then
        .ok (.error (.Error (eng.lvmErrno p.lvm.handle) (eng.lvmErrmsg p.lvm.handle)))
      else .ok (.ok ())

/-- A concrete engine whose calls all succeed, used to instantiate the
quantified theorems on explicit inputs. -/
def engOk : Engine where
  lvmInitHandle := fun _ => some 3
  vgOpenHandle := fun _ _ _ => some 7
  listVgNames := some ["vg0"]
  listVgUuids := some ["u1"]
  vgListLvs := fun _ => some [21]
  vgListPvs := fun _ => some [31]
  vgGetTags := fun _ => some ["t1"]
  lvGetTags := fun _ => some ["t2"]
  vgnameFromDevice := fun _ _ => some "vg0"
  vgnameFromPvid := fun _ _ => some "vg0"
  vgAddTagRet := fun _ _ => 0
  vgRemoveTagRet := fun _ _ => 0
  vgExtendRet := fun _ _ => 0
  vgReduceRet := fun _ _ => 0
  vgRemoveRet := fun _ => 0
  vgSetExtentSizeRet := fun _ _ => 0
  vgWriteRet := fun _ => 0
  vgCloseRet := fun _ => 0
  vgCreateLvLinearHandle := fun _ _ _ => some 22
  thinPoolParamsHandle := fun _ _ _ _ _ _ => some 40
  lvAddTagRet := fun _ _ => 0
  lvRemoveTagRet := fun _ _ => 0
  lvSnapshotHandle := fun _ _ _ => some 23
  pvParamsCreateHandle := fun _ _ => some 50
  pvParamsGetProperty := fun _ _ => 60
  pvParamsSetPropertyRet := fun _ _ _ => 0
  lvmErrno := fun _ => 5
  lvmErrmsg := fun _ => "engine failure"
  processErrno := 12

/-- Variant of `engOk` whose logical-volume enumeration returns a null
list head. -/
def engNullLvs : Engine := { engOk with vgListLvs := fun _ => none }

/-- Variant of `engOk` whose name enumeration returns a null list head. -/
def engNullNames : Engine := { engOk with listVgNames := none }

/-- Variant of `engOk` that fails initialization with a null handle. -/
def engNullInit : Engine := { engOk with lvmInitHandle := fun _ => none }

/-- Variant of `engOk` whose snapshot call returns a null handle. -/
def engNullSnap : Engine := { engOk with lvSnapshotHandle := fun _ _ _ => none }

/-- Variant of `engOk` whose name lookups report no match. -/
def engNoMatch : Engine :=
  { engOk with vgnameFromDevice := fun _ _ => none, vgnameFromPvid := fun _ _ => none }

/-- Variant of `engOk` whose logical-volume tag call fails. -/
def engFailLvTag : Engine := { engOk with lvAddTagRet := fun _ _ => -1 }

/-- Variant of `engOk` whose uuid enumeration yields a string that does
not parse as a uuid. -/
def engBadUuid : Engine := { engOk with listVgUuids := some ["zz"] }

/-- A concrete uuid library for instantiating the quantified theorems:
the string "u1" parses, everything else is rejected. -/
def libOne : UuidLib := ⟨fun s => if s = "u1" then .ok [1] else .error "invalid uuid"⟩

/-- The concrete context used to instantiate the quantified theorems. -/
def lvm3 : Lvm := ⟨3⟩

/-- The concrete session used to instantiate the quantified theorems. -/
def vg7 : VolumeGroup := ⟨7, lvm3⟩

/-- The concrete logical volume used to instantiate the quantified
theorems. -/
def lv21 : LogicalVolume := ⟨21, lvm3, vg7⟩

/-- The traversal loop started at index i with fuel covering the rest of
the list yields exactly the remaining nodes. -/
theorem walkLoop_drop {α : Type} (l : List α) :
    ∀ n i, i + n = l.length → walkLoop l (some i) n = l.drop i := by
  intro n
  induction n with
  | zero =>
    intro i h
    simp only [Nat.add_zero] at h
    simp [walkLoop, h, List.drop_length]
  | succ n ih =>
    intro i h
    have hi : i < l.length := by omega
    have hget : l[i]? = some l[i] := List.getElem?_eq_getElem hi
    rw [walkLoop, hget]
    by_cases hnext : i + 1 < l.length
    · rw [dmListNext, if_pos hnext, ih (i + 1) (by omega)]
      exact (List.drop_eq_getElem_cons hi).symm
    · have hend : i + 1 = l.length := by omega
      rw [dmListNext, if_neg hnext]
      have hzero : walkLoop l none n = [] := by cases n <;> rfl
      rw [hzero, List.drop_eq_getElem_cons hi, hend, List.drop_length]

/-- Full traversal of an intrusive list yields exactly its nodes, in
order: the loop stops at the null/sentinel and skips nothing. -/
theorem walk_eq {α : Type} (l : List α) : walk l = l := by
  rw [walk, dmListFirst]
  by_cases h : l.length = 0
  · rw [if_pos h]
    have hl : l = [] := List.length_eq_zero.mp h
    subst hl
    rfl
  · rw [if_neg h]
    simpa using walkLoop_drop l l.length 0 (by omega)

/-- Claim C1 counterexample: a session opened in Read mode accepts a
mutating call — add_tag on it returns success and its trace shows the
native tag call and the implicit write were both invoked, so no local
permission error is raised and the engine call is not suppressed. -/
theorem c1_counterexample :
    (Lvm.vg_open lvm3 engOk "vg0" OpenMode.Read).1 = .ok vg7
  ∧ (VolumeGroup.add_tag vg7 engOk "t").1 = .ok ()
  ∧ (VolumeGroup.add_tag vg7 engOk "t").2 =
      [.vgAddTag 7 "t", .vgWrite 7] := by
  refine ⟨by decide, by decide, by decide⟩

/-- Claim C1 (amended): the session does not record the mode it was
opened with, and no mutating operation performs a local permission
check — whenever the argument strings convert, every mutating operation
invokes its underlying engine call (it is the first call of the trace),
for any session whatsoever. -/
theorem c1_amended (vg : VolumeGroup) (eng : Engine) (tag dev name pool : String)
    (size chunk meta : Nat) (pol : LvmThinPolicy)
    (htag : hasNul tag = false) (hdev : hasNul dev = false)
    (hname : hasNul name = false) (hpool : hasNul pool = false) :
    (vg.add_tag eng tag).2.head? = some (.vgAddTag vg.handle tag)
  ∧ (vg.remove_tag eng tag).2.head? = some (.vgRemoveTag vg.handle tag)
  ∧ (vg.extend eng dev).2.head? = some (.vgExtend vg.handle dev)
  ∧ (vg.reduce eng dev).2.head? = some (.vgReduce vg.handle dev)
  ∧ (vg.remove eng).2.head? = some (.vgRemove vg.handle)
  ∧ (vg.set_extent_size eng size).2.head? = some (.vgSetExtentSize vg.handle size)
  ∧ (vg.create_lv_linear eng name size).2.head? =
      some (.vgCreateLvLinear vg.handle name size)
  ∧ (vg.create_thin_pool eng pool size chunk meta pol).2.head? =
      some (.thinPoolCall vg.handle pool size chunk meta pol.discard_code)
  ∧ (vg.write eng).2.head? = some (.vgWrite vg.handle) := by
  refine ⟨?_, ?_, ?_, ?_, ?_, ?_, ?_, ?_, rfl⟩
  · cases h1 : check_retcode eng vg.lvm.handle (eng.vgAddTagRet vg.handle tag) <;>
      simp [VolumeGroup.add_tag, htag, h1, VolumeGroup.write]
  · cases h1 : check_retcode eng vg.lvm.handle (eng.vgRemoveTagRet vg.handle tag) <;>
      simp [VolumeGroup.remove_tag, htag, h1, VolumeGroup.write]
  · cases h1 : check_retcode eng vg.lvm.handle (eng.vgExtendRet vg.handle dev) <;>
      simp [VolumeGroup.extend, hdev, h1, VolumeGroup.write]
  · simp [VolumeGroup.reduce, hdev]
  · cases h1 : check_retcode eng vg.lvm.handle (eng.vgRemoveRet vg.handle) <;>
      simp [VolumeGroup.remove, h1, VolumeGroup.write]
  · cases h1 : check_retcode eng vg.lvm.handle (eng.vgSetExtentSizeRet vg.handle size) <;>
      simp [VolumeGroup.set_extent_size, h1, VolumeGroup.write]
  · cases h1 : eng.vgCreateLvLinearHandle vg.handle name size <;>
      simp [VolumeGroup.create_lv_linear, hname, h1]
  · cases h1 : eng.thinPoolParamsHandle vg.handle pool size chunk meta
        pol.discard_code <;>
      simp [VolumeGroup.create_thin_pool, hpool, h1]

/-- Claim C1 witness: the amended statement evaluated on a concrete
session and engine. -/
theorem c1_amended_witness :
    (vg7.add_tag engOk "t").2.head? = some (.vgAddTag vg7.handle "t")
  ∧ (vg7.remove_tag engOk "t").2.head? = some (.vgRemoveTag vg7.handle "t")
  ∧ (vg7.extend engOk "d").2.head? = some (.vgExtend vg7.handle "d")
  ∧ (vg7.reduce engOk "d").2.head? = some (.vgReduce vg7.handle "d")
  ∧ (vg7.remove engOk).2.head? = some (.vgRemove vg7.handle)
  ∧ (vg7.set_extent_size engOk 1).2.head? = some (.vgSetExtentSize vg7.handle 1)
  ∧ (vg7.create_lv_linear engOk "n" 1).2.head? =
      some (.vgCreateLvLinear vg7.handle "n" 1)
  ∧ (vg7.create_thin_pool engOk "p" 1 2 3 LvmThinPolicy.Passdown).2.head? =
      some (.thinPoolCall vg7.handle "p" 1 2 3 LvmThinPolicy.Passdown.discard_code)
  ∧ (vg7.write engOk).2.head? = some (.vgWrite vg7.handle) :=
  c1_amended vg7 engOk "t" "d" "n" "p" 1 2 3 LvmThinPolicy.Passdown
    (by decide) (by decide) (by decide) (by decide)

/-- Claim C2: the code bug exhibited — after an explicit successful
close, the destructor issues a second native close on the same handle
(the handle field is never cleared, so the destructor's null guard does
not fire), and further use of the session still reaches the engine
instead of failing locally. -/
theorem c2_bug :
    closeThenDrop vg7 engOk = [.vgClose 7, .vgClose 7]
  ∧ (vg7.close engOk).1 = .ok ()
  ∧ (vg7.write engOk).2 = [.vgWrite 7] := by
  refine ⟨by decide, by decide, by decide⟩

/-- Claim C3 counterexample: a successful reduce commits nothing — its
result is success but its trace holds only the native reduce call, with
no implicit write. -/
theorem c3_counterexample :
    (vg7.reduce engOk "/dev/sda").1 = .ok ()
  ∧ (vg7.reduce engOk "/dev/sda").2 = [.vgReduce 7 "/dev/sda"] := by
  refine ⟨by decide, by decide⟩

/-- Claim C3 (amended): every successful extend issues the implicit
write of the volume-group metadata before returning, while reduce never
issues an implicit write — its change is only committed by a later
explicit write. -/
theorem c3_amended (vg : VolumeGroup) (eng : Engine) (dev : String)
    (h : hasNul dev = false) :
    ((vg.extend eng dev).1 = .ok () →
      (vg.extend eng dev).2 = [.vgExtend vg.handle dev, .vgWrite vg.handle])
  ∧ EngineCall.vgWrite vg.handle ∉ (vg.reduce eng dev).2 := by
  constructor
  · intro hok
    cases h1 : check_retcode eng vg.lvm.handle (eng.vgExtendRet vg.handle dev) with
    | error e => simp [VolumeGroup.extend, h, h1] at hok
    | ok v => simp [VolumeGroup.extend, h, h1, VolumeGroup.write]
  · simp [VolumeGroup.reduce, h]

/-- Claim C3 witness: the amended statement evaluated on a concrete
session and engine. -/
theorem c3_amended_witness :
    (vg7.extend engOk "d").2 = [.vgExtend vg7.handle "d", .vgWrite vg7.handle]
  ∧ EngineCall.vgWrite vg7.handle ∉ (vg7.reduce engOk "d").2 :=
  ⟨(c3_amended vg7 engOk "d" (by decide)).1 (by decide),
   (c3_amended vg7 engOk "d" (by decide)).2⟩

/-- Claim C4 counterexample: a null list head from the engine's
logical-volume enumeration is not surfaced as an engine error — the
source passes the head to dm_list_first without a null check, which is
an unchecked null dereference (ub), not an error return. -/
theorem c4_counterexample :
    (vg7.list_lvs engNullLvs).1 = UbResult.ub := by decide

/-- Claim C4 (amended): in the volume-group-name and uuid enumerations a
null list head is surfaced as an engine error, while in the
logical-volume, physical-volume and tag enumerations no null check is
performed and a null head is an unchecked null dereference; in every
case a non-null list (the empty one included) yields a successful
sequence of exactly its nodes in traversal order, and the only engine
call made is the enumeration call itself — no node is freed. -/
theorem c4_amended (lvm : Lvm) (vg : VolumeGroup) (lv : LogicalVolume)
    (eng : Engine) :
    (eng.listVgNames = none →
      (lvm.get_volume_group_names eng).1 =
        .error (.Error (eng.lvmErrno lvm.handle) (eng.lvmErrmsg lvm.handle)))
  ∧ (∀ l, eng.listVgNames = some l → (lvm.get_volume_group_names eng).1 = .ok l)
  ∧ (∀ lib, eng.listVgUuids = none →
      (lvm.get_volume_group_uuids eng lib).1 =
        .error (.Error (eng.lvmErrno lvm.handle) (eng.lvmErrmsg lvm.handle)))
  ∧ (eng.vgListLvs vg.handle = none → (vg.list_lvs eng).1 = .ub)
  ∧ (∀ hs, eng.vgListLvs vg.handle = some hs →
      (vg.list_lvs eng).1 = .ok (hs.map fun h => ⟨h, vg.lvm, vg⟩))
  ∧ (eng.vgListPvs vg.handle = none → (vg.list_pvs eng).1 = .ub)
  ∧ (∀ hs, eng.vgListPvs vg.handle = some hs →
      (vg.list_pvs eng).1 = .ok (hs.map fun h => ⟨h, vg.lvm⟩))
  ∧ (eng.vgGetTags vg.handle = none → (vg.get_tags eng).1 = .ub)
  ∧ (∀ l, eng.vgGetTags vg.handle = some l → (vg.get_tags eng).1 = .ok l)
  ∧ (eng.lvGetTags lv.handle = none → (lv.get_tags eng).1 = .ub)
  ∧ (∀ l, eng.lvGetTags lv.handle = some l → (lv.get_tags eng).1 = .ok l)
  ∧ (lvm.get_volume_group_names eng).2 = [.listVgNamesCall lvm.handle]
  ∧ (vg.list_lvs eng).2 = [.vgListLvsCall vg.handle]
  ∧ (vg.list_pvs eng).2 = [.vgListPvsCall vg.handle]
  ∧ (vg.get_tags eng).2 = [.vgGetTagsCall vg.handle]
  ∧ (lv.get_tags eng).2 = [.lvGetTagsCall lv.handle] := by
  refine ⟨?_, ?_, ?_, ?_, ?_, ?_, ?_, ?_, ?_, ?_, ?_, ?_, ?_, ?_, ?_, ?_⟩
  · intro h; simp [Lvm.get_volume_group_names, h]
  · intro l h; simp [Lvm.get_volume_group_names, h, walk_eq]
  · intro lib h; simp [Lvm.get_volume_group_uuids, h]
  · intro h; simp [VolumeGroup.list_lvs, h]
  · intro hs h; simp [VolumeGroup.list_lvs, h, walk_eq]
  · intro h; simp [VolumeGroup.list_pvs, h]
  · intro hs h; simp [VolumeGroup.list_pvs, h, walk_eq]
  · intro h; simp [VolumeGroup.get_tags, h]
  · intro l h; simp [VolumeGroup.get_tags, h, walk_eq]
  · intro h; simp [LogicalVolume.get_tags, h]
  · intro l h; simp [LogicalVolume.get_tags, h, walk_eq]
  · cases h : eng.listVgNames <;> simp [Lvm.get_volume_group_names, h]
  · cases h : eng.vgListLvs vg.handle <;> simp [VolumeGroup.list_lvs, h]
  · cases h : eng.vgListPvs vg.handle <;> simp [VolumeGroup.list_pvs, h]
  · cases h : eng.vgGetTags vg.handle <;> simp [VolumeGroup.get_tags, h]
  · cases h : eng.lvGetTags lv.handle <;> simp [LogicalVolume.get_tags, h]

/-- Claim C4 witness: the amended statement evaluated on concrete
engines, once with a null name-list head and null lv-list head and once
with non-null lists. -/
theorem c4_amended_witness :
    (lvm3.get_volume_group_names engNullNames).1 =
      .error (.Error (engNullNames.lvmErrno lvm3.handle)
        (engNullNames.lvmErrmsg lvm3.handle))
  ∧ (lvm3.get_volume_group_names engOk).1 = .ok ["vg0"]
  ∧ (vg7.list_lvs engNullLvs).1 = .ub
  ∧ (vg7.list_lvs engOk).1 = .ok ([21].map fun h => ⟨h, vg7.lvm, vg7⟩) :=
  ⟨(c4_amended lvm3 vg7 lv21 engNullNames).1 rfl,
   (c4_amended lvm3 vg7 lv21 engOk).2.1 ["vg0"] rfl,
   (c4_amended lvm3 vg7 lv21 engNullLvs).2.2.2.1 rfl,
   (c4_amended lvm3 vg7 lv21 engOk).2.2.2.2.1 [21] rfl⟩

/-- The parsing loop succeeds exactly as mapping the uuid parser over
the node strings succeeds, yielding the parsed values in order. -/
theorem parseAll_ok (lib : UuidLib) :
    ∀ l us, l.mapM (fun s => (lib.fromStr s).toOption) = some us →
      parseAll lib l = .ok us := by
  intro l
  induction l with
  | nil =>
    intro us h
    simp only [List.mapM_nil, pure, Option.some.injEq] at h
    simp [parseAll, h.symm]
  | cons s rest ih =>
    intro us h
    rw [List.mapM_cons] at h
    cases hs : (lib.fromStr s).toOption with
    | none => rw [hs] at h; simp at h
    | some u =>
      rw [hs] at h
      cases hr : rest.mapM fun t => (lib.fromStr t).toOption with
      | none => rw [hr] at h; simp at h
      | some us2 =>
        rw [hr] at h
        simp only [Option.bind_eq_bind, Option.some_bind, Option.pure_def,
          Option.some.injEq] at h
        cases hfs : lib.fromStr s with
        | error e => rw [hfs] at hs; simp [Except.toOption] at hs
        | ok u2 =>
          rw [hfs] at hs
          simp only [Except.toOption, Option.some.injEq] at hs
          simp [parseAll, hfs, ih us2 hr, ← h, hs]

/-- The parsing loop fails with a ParseError as soon as one node string
is rejected by the uuid parser. -/
theorem parseAll_fail (lib : UuidLib) :
    ∀ l, (∃ s ∈ l, ∃ e, lib.fromStr s = .error e) →
      ∃ m, parseAll lib l = .error (.ParseError m) := by
  intro l
  induction l with
  | nil => rintro ⟨s, hs, _⟩; simp at hs
  | cons s rest ih =>
    rintro ⟨t, ht, e, he⟩
    cases hfs : lib.fromStr s with
    | error e2 => exact ⟨e2, by simp [parseAll, hfs]⟩
    | ok u =>
      have hmem : t ∈ rest := by
        rcases List.mem_cons.mp ht with h1 | h1
        · subst h1; rw [hfs] at he; exact absurd he (by simp)
        · exact h1
      obtain ⟨m, hm⟩ := ih ⟨t, hmem, e, he⟩
      exact ⟨m, by simp [parseAll, hfs, hm]⟩

/-- Claim C5: when the uuid enumeration returns a non-null list, the
operation fails with a ParseError (a local validation failure, distinct
from the engine-error variant) exactly if some node string is rejected
by the uuid parser, and otherwise returns the parsed uuids in traversal
order. -/
theorem c5_uuid_parse (lvm : Lvm) (eng : Engine) (lib : UuidLib) (l : List String)
    (hl : eng.listVgUuids = some l) :
    ((∃ s ∈ l, ∃ e, lib.fromStr s = .error e) →
      ∃ m, (lvm.get_volume_group_uuids eng lib).1 = .error (.ParseError m))
  ∧ (∀ us, l.mapM (fun s => (lib.fromStr s).toOption) = some us →
      (lvm.get_volume_group_uuids eng lib).1 = .ok us) := by
  constructor
  · intro hex
    obtain ⟨m, hm⟩ := parseAll_fail lib l hex
    exact ⟨m, by simp [Lvm.get_volume_group_uuids, hl, walk_eq, hm]⟩
  · intro us hus
    simp [Lvm.get_volume_group_uuids, hl, walk_eq, parseAll_ok lib l us hus]

/-- Claim C5 witness: the statement evaluated on a concrete engine and
parser, once with an ill-formed uuid string and once with a well-formed
one. -/
theorem c5_uuid_parse_witness :
    (∃ m, (lvm3.get_volume_group_uuids engBadUuid libOne).1 =
      .error (.ParseError m))
  ∧ (lvm3.get_volume_group_uuids engOk libOne).1 = .ok [[1]] :=
  ⟨(c5_uuid_parse lvm3 engBadUuid libOne ["zz"] rfl).1
      ⟨"zz", by decide, "invalid uuid", by decide⟩,
   (c5_uuid_parse lvm3 engOk libOne ["u1"] rfl).2 [[1]] (by decide)⟩

/-- Claim C6: opening the engine context, with or without an alternate
configuration directory, fails exactly when the engine returns a null
handle, and the surfaced error carries the process-wide errno read at
failure time together with the allocation-failure message. -/
theorem c6_open (eng : Engine) (sd : Option String)
    (hnul : ∀ s, sd = some s → hasNul s = false) :
    ((∃ e, (Lvm.new eng sd).1 = .error e) ↔ eng.lvmInitHandle sd = none)
  ∧ (eng.lvmInitHandle sd = none →
      (Lvm.new eng sd).1 = .error (.Error eng.processErrno "Memory allocation problem"))
  ∧ (∀ h, eng.lvmInitHandle sd = some h → (Lvm.new eng sd).1 = .ok ⟨h⟩) := by
  cases sd with
  | none =>
    cases hin : eng.lvmInitHandle none <;> simp [Lvm.new, hin]
  | some s =>
    have hs : hasNul s = false := hnul s rfl
    cases hin : eng.lvmInitHandle (some s) <;> simp [Lvm.new, hs, hin]

/-- Claim C6 witness: the statement evaluated on a concrete alternate
directory with a failing and a succeeding engine. -/
theorem c6_open_witness :
    (Lvm.new engNullInit (some "dir")).1 =
      .error (.Error engNullInit.processErrno "Memory allocation problem")
  ∧ (Lvm.new engOk (some "dir")).1 = .ok ⟨3⟩ :=
  ⟨(c6_open engNullInit (some "dir")
      (by intro s hs; cases hs; decide)).2.1 rfl,
   (c6_open engOk (some "dir")
      (by intro s hs; cases hs; decide)).2.2 3 rfl⟩

/-- Claim C7: a successful add_tag or remove_tag on a logical volume has
invoked the owning session's write before returning (the trace is
exactly the native tag call followed by the session write), and the
operation errors whenever the engine tag call or the implicit write
reports failure. -/
theorem c7_lv_tags (lv : LogicalVolume) (eng : Engine) (tag : String)
    (h : hasNul tag = false) :
    ((lv.add_tag eng tag).1 = .ok () →
      (lv.add_tag eng tag).2 = [.lvAddTag lv.handle tag, .vgWrite lv.vg.handle])
  ∧ (eng.lvAddTagRet lv.handle tag < 0 →
      ∃ e, (lv.add_tag eng tag).1 = .error e)
  ∧ (eng.vgWriteRet lv.vg.handle < 0 →
      ∃ e, (lv.add_tag eng tag).1 = .error e)
  ∧ ((lv.remove_tag eng tag).1 = .ok () →
      (lv.remove_tag eng tag).2 = [.lvRemoveTag lv.handle tag, .vgWrite lv.vg.handle])
  ∧ (eng.lvRemoveTagRet lv.handle tag < 0 →
      ∃ e, (lv.remove_tag eng tag).1 = .error e)
  ∧ (eng.vgWriteRet lv.vg.handle < 0 →
      ∃ e, (lv.remove_tag eng tag).1 = .error e) := by
  refine ⟨?_, ?_, ?_, ?_, ?_, ?_⟩
  · intro hok
    cases h1 : check_retcode eng lv.lvm.handle (eng.lvAddTagRet lv.handle tag) with
    | error e => simp [LogicalVolume.add_tag, h, h1] at hok
    | ok v => simp [LogicalVolume.add_tag, h, h1, VolumeGroup.write]
  · intro hr
    refine ⟨.Error (eng.lvmErrno lv.lvm.handle) (eng.lvmErrmsg lv.lvm.handle), ?_⟩
    simp [LogicalVolume.add_tag, h, check_retcode, hr]
  · intro hw
    cases h1 : check_retcode eng lv.lvm.handle (eng.lvAddTagRet lv.handle tag) with
    | error e => exact ⟨e, by simp [LogicalVolume.add_tag, h, h1]⟩
    | ok v =>
      have hge : ¬ eng.lvAddTagRet lv.handle tag < 0 := by
        intro hlt; simp [check_retcode, hlt] at h1
      refine ⟨.Error (eng.lvmErrno lv.vg.lvm.handle) (eng.lvmErrmsg lv.vg.lvm.handle), ?_⟩
      simp [LogicalVolume.add_tag, h, check_retcode, hge, hw, VolumeGroup.write]
  · intro hok
    cases h1 : check_retcode eng lv.lvm.handle (eng.lvRemoveTagRet lv.handle tag) with
    | error e => simp [LogicalVolume.remove_tag, h, h1] at hok
    | ok v => simp [LogicalVolume.remove_tag, h, h1, VolumeGroup.write]
  · intro hr
    refine ⟨.Error (eng.lvmErrno lv.lvm.handle) (eng.lvmErrmsg lv.lvm.handle), ?_⟩
    simp [LogicalVolume.remove_tag, h, check_retcode, hr]
  · intro hw
    cases h1 : check_retcode eng lv.lvm.handle (eng.lvRemoveTagRet lv.handle tag) with
    | error e => exact ⟨e, by simp [LogicalVolume.remove_tag, h, h1]⟩
    | ok v =>
      have hge : ¬ eng.lvRemoveTagRet lv.handle tag < 0 := by
        intro hlt; simp [check_retcode, hlt] at h1
      refine ⟨.Error (eng.lvmErrno lv.vg.lvm.handle) (eng.lvmErrmsg lv.vg.lvm.handle), ?_⟩
      simp [LogicalVolume.remove_tag, h, check_retcode, hge, hw, VolumeGroup.write]

/-- Claim C7 witness: the statement evaluated on a concrete logical
volume with a succeeding engine (traces shown) and a failing tag call
(error shown). -/
theorem c7_lv_tags_witness :
    (lv21.add_tag engOk "t").2 = [.lvAddTag lv21.handle "t", .vgWrite lv21.vg.handle]
  ∧ (lv21.remove_tag engOk "t").2 =
      [.lvRemoveTag lv21.handle "t", .vgWrite lv21.vg.handle]
  ∧ (∃ e, (lv21.add_tag engFailLvTag "t").1 = .error e) :=
  ⟨(c7_lv_tags lv21 engOk "t" (by decide)).1 (by decide),
   (c7_lv_tags lv21 engOk "t" (by decide)).2.2.2.1 (by decide),
   (c7_lv_tags lv21 engFailLvTag "t" (by decide)).2.1 (by decide)⟩

/-- Claim C8: the two volume-group-name lookups return an explicit empty
result when the engine reports no match with a null string, and a
successful name otherwise — a no-match is a success value, not an
error. -/
theorem c8_lookups (lvm : Lvm) (eng : Engine) (device : String) (pvid : Uuid)
    (h1 : hasNul device = false) (h2 : pvid.contains 0 = false) :
    (eng.vgnameFromDevice lvm.handle device = none →
      lvm.vg_name_from_device eng device = .ok none)
  ∧ (∀ s, eng.vgnameFromDevice lvm.handle device = some s →
      lvm.vg_name_from_device eng device = .ok (some s))
  ∧ (eng.vgnameFromPvid lvm.handle pvid = none →
      lvm.vg_name_from_pvid eng pvid = .ok none)
  ∧ (∀ s, eng.vgnameFromPvid lvm.handle pvid = some s →
      lvm.vg_name_from_pvid eng pvid = .ok (some s)) := by
  have h2m : (0 : Nat) ∉ pvid := by simpa using h2
  refine ⟨?_, ?_, ?_, ?_⟩
  · intro h; simp [Lvm.vg_name_from_device, h1, h]
  · intro s h; simp [Lvm.vg_name_from_device, h1, h]
  · intro h; simp [Lvm.vg_name_from_pvid, h2m, h]
  · intro s h; simp [Lvm.vg_name_from_pvid, h2m, h]

/-- Claim C8 witness: the statement evaluated on a concrete context with
a no-match engine and a matching engine. -/
theorem c8_lookups_witness :
    lvm3.vg_name_from_device engNoMatch "/dev/sda" = .ok none
  ∧ lvm3.vg_name_from_pvid engNoMatch [1, 2] = .ok none
  ∧ lvm3.vg_name_from_device engOk "/dev/sda" = .ok (some "vg0") :=
  ⟨(c8_lookups lvm3 engNoMatch "/dev/sda" [1, 2] (by decide) (by decide)).1 rfl,
   (c8_lookups lvm3 engNoMatch "/dev/sda" [1, 2] (by decide) (by decide)).2.2.1 rfl,
   (c8_lookups lvm3 engOk "/dev/sda" [1, 2] (by decide) (by decide)).2.1 "vg0" rfl⟩

/-- Claim C9: snapshot fails with the context's current error exactly
when the engine returns a null handle; on success the new handle shares
the origin's session and context; the requested maximum size (zero
included) is forwarded to the engine unchanged. -/
theorem c9_snapshot (lv : LogicalVolume) (eng : Engine) (sname : String)
    (msz : Nat) (h : hasNul sname = false) :
    ((∃ e, (lv.snapshot eng sname msz).1 = .error e) ↔
      eng.lvSnapshotHandle lv.handle sname msz = none)
  ∧ (eng.lvSnapshotHandle lv.handle sname msz = none →
      (lv.snapshot eng sname msz).1 =
        .error (.Error (eng.lvmErrno lv.lvm.handle) (eng.lvmErrmsg lv.lvm.handle)))
  ∧ (∀ hh, eng.lvSnapshotHandle lv.handle sname msz = some hh →
      (lv.snapshot eng sname msz).1 = .ok ⟨hh, lv.lvm, lv.vg⟩)
  ∧ (lv.snapshot eng sname msz).2 = [.lvSnapshot lv.handle sname msz] := by
  refine ⟨?_, ?_, ?_, ?_⟩
  · cases hh : eng.lvSnapshotHandle lv.handle sname msz <;>
      simp [LogicalVolume.snapshot, h, hh]
  · intro hh; simp [LogicalVolume.snapshot, h, hh]
  · intro v hh; simp [LogicalVolume.snapshot, h, hh]
  · cases hh : eng.lvSnapshotHandle lv.handle sname msz <;>
      simp [LogicalVolume.snapshot, h, hh]

/-- Claim C9 witness: the statement evaluated on a concrete origin with
maximum size zero, once with a null-handle engine and once with a
succeeding one. -/
theorem c9_snapshot_witness :
    (lv21.snapshot engNullSnap "s" 0).1 =
      .error (.Error (engNullSnap.lvmErrno lv21.lvm.handle)
        (engNullSnap.lvmErrmsg lv21.lvm.handle))
  ∧ (lv21.snapshot engOk "s" 0).1 = .ok ⟨23, lv21.lvm, lv21.vg⟩
  ∧ (lv21.snapshot engOk "s" 0).2 = [.lvSnapshot lv21.handle "s" 0] :=
  ⟨(c9_snapshot lv21 engNullSnap "s" 0 (by decide)).2.1 rfl,
   (c9_snapshot lv21 engOk "s" 0 (by decide)).2.2.1 23 rfl,
   (c9_snapshot lv21 engOk "s" 0 (by decide)).2.2.2⟩

/-- No property name of the Rust enum contains an interior NUL byte. -/
theorem Property.to_string_nul (pr : Property) : hasNul pr.to_string = false := by
  cases pr <;> simp only [Property.to_string] <;> decide

/-- Claim C10: a freshly created parameter object carries no cached
property value, and set_property on such an object panics (the unwrap of
the empty cached value) instead of returning a typed error; a successful
get_property is what populates the cached value. -/
theorem c10_set_property (lvm : Lvm) (eng : Engine) (s : String)
    (p : PhysicalVolumeCreateParameters) (name : Property)
    (hp : lvm.pv_create_params eng s = .ok p) :
    p.property_value = none
  ∧ p.set_property eng name = .panicked
  ∧ (∀ r q, p.get_property eng name = (r, q) → q.property_value.isSome = true) := by
  have hnone : p.property_value = none := by
    by_cases hn : hasNul s
    · simp [Lvm.pv_create_params, hn] at hp
    · cases hh : eng.pvParamsCreateHandle lvm.handle s with
      | none => simp [Lvm.pv_create_params, hn, hh] at hp
      | some h2 =>
        simp only [Lvm.pv_create_params, hn, Bool.false_eq_true, if_false, hh,
          Except.ok.injEq] at hp
        rw [← hp]
  refine ⟨hnone, ?_, ?_⟩
  · simp [PhysicalVolumeCreateParameters.set_property, Property.to_string_nul, hnone]
  · intro r q hq
    simp only [PhysicalVolumeCreateParameters.get_property, Property.to_string_nul,
      Bool.false_eq_true, if_false, Prod.mk.injEq] at hq
    rw [← hq.2]
    simp

/-- Claim C10 witness: the statement evaluated on a concrete fresh
parameter object. -/
theorem c10_set_property_witness :
    (⟨50, none, lvm3⟩ : PhysicalVolumeCreateParameters).property_value = none
  ∧ (⟨50, none, lvm3⟩ : PhysicalVolumeCreateParameters).set_property engOk
      (Property.Size 0) = .panicked :=
  ⟨(c10_set_property lvm3 engOk "pv" ⟨50, none, lvm3⟩ (Property.Size 0)
      (by decide)).1,
   (c10_set_property lvm3 engOk "pv" ⟨50, none, lvm3⟩ (Property.Size 0)
      (by decide)).2.1⟩

end LvmRs
